import Mathlib

/-!
Verification of the interview-scheduler agent's tool layer
(`interview_scheduler_agent/agent.py`, `interview_scheduler_agent/sql_agent.py`).

The tools are interactive Python functions: each reads free-text outcome lines
from the console (`input()`), classifies them by lowercase substring matching,
and builds a structured result record.  The embedding makes every console read
an explicit argument (or an explicit input stream for the SQL tool) and the
wall-clock time an explicit `now` argument, so each tool becomes a pure Lean
function mirroring the Python source line by line.
-/

/-- ASCII lowering of one character, as Python's `str.lower` acts on ASCII. -/
def pyLowerChar (c : Char) : Char := c.toLower

/-- `s.lower()`: lowercase every character of the string. -/
def pyLower (s : String) : String := ⟨s.data.map pyLowerChar⟩

/-- Python's `hay.startswith(needle)` on character lists. -/
def pyStartsWith : List Char → List Char → Bool
  | _, [] => true
  | [], _ :: _ => false
  | a :: as, b :: bs => a == b && pyStartsWith as bs

/-- Helper for `pyContains`: does `needle` occur as a contiguous run in `hay`? -/
def containsSub (needle : List Char) : List Char → Bool
  | [] => needle.isEmpty
  | c :: t => pyStartsWith (c :: t) needle || containsSub needle t

/-- Python's `needle in hay` substring test. -/
def pyContains (hay needle : String) : Bool := containsSub needle.data hay.data

/-- `needle` occurs as a contiguous substring of `hay` (the mathematical
substring relation, used to state the spec claims). -/
def substrOf (needle hay : String) : Prop :=
  ∃ pre post, hay.data = pre ++ needle.data ++ post

theorem pyStartsWith_iff (h n : List Char) :
    pyStartsWith h n = true ↔ ∃ t, h = n ++ t := by
  induction n generalizing h with
  | nil => simp [pyStartsWith]
  | cons b bs ih =>
    cases h with
    | nil => simp [pyStartsWith]
    | cons a as =>
      simp only [pyStartsWith, Bool.and_eq_true, beq_iff_eq, ih, List.cons_append,
        List.cons.injEq]
      constructor
      · rintro ⟨rfl, t, rfl⟩; exact ⟨t, rfl, rfl⟩
      · rintro ⟨t, rfl, rfl⟩; exact ⟨rfl, t, rfl⟩

theorem containsSub_iff (n h : List Char) :
    containsSub n h = true ↔ ∃ pre post, h = pre ++ n ++ post := by
  induction h with
  | nil =>
    simp only [containsSub, List.isEmpty_iff]
    constructor
    · rintro rfl; exact ⟨[], [], rfl⟩
    · rintro ⟨pre, post, hh⟩
      rcases List.append_eq_nil.mp (List.append_eq_nil.mp hh.symm).1 with ⟨-, h2⟩
      exact h2
  | cons c t ih =>
    simp only [containsSub, Bool.or_eq_true, pyStartsWith_iff, ih]
    constructor
    · rintro (⟨t', ht⟩ | ⟨pre, post, rfl⟩)
      · exact ⟨[], t', by simpa using ht⟩
      · exact ⟨c :: pre, post, rfl⟩
    · rintro ⟨pre, post, hh⟩
      cases pre with
      | nil => exact Or.inl ⟨post, by simpa using hh⟩
      | cons p ps =>
        right
        simp only [List.cons_append, List.cons.injEq] at hh
        exact ⟨ps, post, hh.2⟩

theorem substrOf_iff (n h : String) : substrOf n h ↔ pyContains h n = true := by
  rw [substrOf, pyContains, containsSub_iff]

instance substrOfDecidable (n h : String) : Decidable (substrOf n h) :=
  decidable_of_iff (pyContains h n = true) (substrOf_iff n h).symm

/-! ## `call_contact` (agent.py lines 8-51) -/

/-- The record returned by `call_contact`. -/
structure CallResult where
  status : String
  contact_name : String
  contact_role : String
  phone_number : String
  discussion_summary : String
  duration_minutes : Nat
  next_steps : String
deriving DecidableEq, Repr

/-- `call_contact(contact_name, phone_number, purpose)` with the console reply
to "Please describe the call outcome" passed as the `outcome` argument. -/
def call_contact (contact_name phone_number purpose outcome : String) : CallResult :=
  let role : String :=
    if pyContains (pyLower purpose) "interviewer" then "Interviewer"
    else if pyContains (pyLower purpose) "candidate" then "Candidate"
    else if pyContains (pyLower purpose) "hr" || pyContains (pyLower purpose) "recruiter" then
      "HR/Recruiter"
    else "Contact"
  let success : Bool :=
    !pyContains (pyLower outcome) "no answer" && !pyContains (pyLower outcome) "failed"
  { status := if success then "success" else "no_answer"
    contact_name := contact_name
    contact_role := role
    phone_number := phone_number
    discussion_summary := outcome
    duration_minutes := if success then 5 else 0
    next_steps := if !success then "Follow up via email" else "Proceed with scheduling" }

/-! ## `schedule_calendar` (agent.py lines 53-88) -/

/-- The record returned by `schedule_calendar`. -/
structure ScheduleResult where
  status : String
  candidate_name : String
  scheduled_date : String
  scheduled_time : String
  duration_minutes : Nat
  interview_type : String
  confirmation : String
  meeting_id : String
deriving DecidableEq, Repr

/-- `schedule_calendar(...)` with the console reply passed as `outcome` and the
current-time stamp `datetime.datetime.now().strftime(...)` passed as `now`. -/
def schedule_calendar (candidate_name date time : String) (duration_minutes : Nat)
    (interview_type outcome now : String) : ScheduleResult :=
  let success : Bool :=
    !pyContains (pyLower outcome) "conflict" && !pyContains (pyLower outcome) "fail"
  { status := if success then "success" else "conflict"
    candidate_name := candidate_name
    scheduled_date := date
    scheduled_time := time
    duration_minutes := duration_minutes
    interview_type := interview_type
    confirmation := outcome
    meeting_id := "INT_" ++ now }

/-! ## `send_email` (agent.py lines 90-156) -/

/-- Python whitespace characters stripped by `str.strip()` (ASCII range). -/
def isPySpace (c : Char) : Bool :=
  c == ' ' || c == '\t' || c == '\n' || c == '\x0d' || c == '\x0b' || c == '\x0c'

/-- `s.strip()`: drop leading and trailing whitespace. -/
def pyStrip (s : String) : String :=
  ⟨List.reverse (List.dropWhile isPySpace (List.reverse (List.dropWhile isPySpace s.data)))⟩

/-- The record returned by `send_email`. -/
structure EmailResult where
  status : String
  recipient_email : String
  recipient_role : String
  subject : String
  message_type : String
  delivery_confirmation : String
  recipient_response : String
  response_time : String
  sent_at : String
deriving DecidableEq, Repr

/-- `send_email(...)` with the three console replies passed as arguments:
`outcome` (sending result), `reply` (the simulated recipient response, read
only when delivery succeeded) and `replyTime` (read only when `reply` is
non-blank); `now` is `datetime.datetime.now().isoformat()`. -/
def send_email (recipient_email subject message_type additional_details
    outcome reply replyTime now : String) : EmailResult :=
  let inEither (w : String) : Bool :=
    pyContains (pyLower message_type) w || pyContains (pyLower subject) w
  let role : String :=
    if inEither "interviewer" || inEither "interview availability" then "Interviewer"
    else if inEither "candidate" || inEither "applicant" then "Candidate"
    else if inEither "hr" || inEither "recruiter" || inEither "recruitment" then "HR/Recruiter"
    else "Recipient"
  let delivered : Bool :=
    !pyContains (pyLower outcome) "fail" && !pyContains (pyLower outcome) "error"
  let email_response : String :=
    if delivered then (if pyStrip reply ≠ "" then reply else "No response received")
    else "Email not delivered"
  let response_time : String :=
    if delivered then (if pyStrip reply ≠ "" then replyTime else "N/A")
    else "N/A"
  { status := if delivered then "success" else "failed"
    recipient_email := recipient_email
    recipient_role := role
    subject := subject
    message_type := message_type
    delivery_confirmation := outcome
    recipient_response := email_response
    response_time := response_time
    sent_at := now }

/-! ## `human_in_loop` (agent.py lines 198-234) -/

/-- The record returned by `human_in_loop`. -/
structure EscalationResult where
  status : String
  decision : String
  additional_instructions : String
  timestamp : String
deriving DecidableEq, Repr

/-- `human_in_loop(situation, context, suggested_actions)` with the two console
replies passed as `decision` and `extra`; `now` is the timestamp. -/
def human_in_loop (situation context suggested_actions decision extra now : String) :
    EscalationResult :=
  { status := if !pyContains (pyLower decision) "cancel" then "resolved" else "cancelled"
    decision := decision
    additional_instructions := if extra ≠ "" then extra else "None"
    timestamp := now }

/-! ## `execute_sql_query` (sql_agent.py lines 115-191) -/

/-- Python values as produced by `json.loads` and built inside
`execute_sql_query` (dicts, lists, strings, numbers, booleans, `None`). -/
inductive PyVal where
  | pdict : List (String × PyVal) → PyVal
  | plist : List PyVal → PyVal
  | pstr : String → PyVal
  | pint : Int → PyVal
  | pbool : Bool → PyVal
  | pnone : PyVal

/-- Python dict lookup `d[k]` / `k in d` on an association list. -/
def pyGet (k : String) : List (String × PyVal) → Option PyVal
  | [] => none
  | (k2, v) :: rest => if k2 = k then some v else pyGet k rest

/-- Python `len(v)`: defined on dicts, lists and strings; raises `TypeError`
(modelled as `none`) on numbers, booleans and `None`. -/
def pyLen : PyVal → Option Nat
  | .pdict d => some d.length
  | .plist l => some l.length
  | .pstr s => some s.data.length
  | _ => none

/-- Python `s.isdigit()` restricted to ASCII: non-empty and all decimal digits. -/
def pyIsDigit (s : String) : Bool := !s.data.isEmpty && s.data.all Char.isDigit

/-- Python `int(s)` on a string of ASCII decimal digits. -/
def pyToNat (s : String) : Nat :=
  s.data.foldl (fun n c => 10 * n + (c.toNat - 48)) 0

/-- The dict returned by `execute_sql_query`: the error branch, the success
branch, and the `except Exception` branch each build a dict with its own keys. -/
inductive SqlResult where
  | err (query error_message suggestion executed_at : String) : SqlResult
  | ok (query : String) (results : PyVal) (row_count : Option Nat)
      (executed_at : String) : SqlResult
  | parseErr (query error_message executed_at : String) : SqlResult

/-- The `status` key of the returned dict. -/
def SqlResult.status : SqlResult → String
  | .err _ _ _ _ => "error"
  | .ok _ _ _ _ => "success"
  | .parseErr _ _ _ => "error"

/-- The `error_message` key of the returned dict (absent on success). -/
def SqlResult.error_message : SqlResult → Option String
  | .err _ m _ _ => some m
  | .ok _ _ _ _ => none
  | .parseErr _ m _ => some m

/-- Builds the success-branch dict: computes `row_count` as
`len(results.get("rows", [])) if isinstance(results, dict) and "rows" in results
else None`; when that `len` raises `TypeError`, the `except Exception` branch
returns the "Result parsing error" dict instead (its `str(e)` text is
abstracted as a fixed message). -/
def mkSqlSuccess (query : String) (results : PyVal) (now : String) : SqlResult :=
  match results with
  | .pdict d =>
    match pyGet "rows" d with
    | some v =>
      match pyLen v with
      | some n => .ok query results (some n) now
      | none => .parseErr query "Result parsing error: object has no len()" now
    | none => .ok query results none now
  | _ => .ok query results none now

/-- `execute_sql_query(query, explanation)` over an explicit console-input
stream.  `jloads` abstracts `json.loads`: `none` models a `JSONDecodeError`.
Returns the result dict together with the number of input lines consumed;
`none` models an exhausted input stream (`EOFError`). -/
def execute_sql_query (jloads : String → Option PyVal) (query explanation : String)
    (inputs : List String) (now : String) : Option (SqlResult × Nat) :=
  match inputs with
  | [] => none
  | outcome :: rest =>
    if pyStartsWith (pyLower outcome).data "error".data then
      some (.err query
        (if 6 < outcome.data.length then pyStrip ⟨outcome.data.drop 6⟩
         else "Unknown database error")
        "Check table names, column names, and syntax" now, 1)
    else if pyLower outcome = "success" then
      match rest with
      | [] => none
      | results_input :: _ =>
        let results : PyVal :=
          if pyIsDigit results_input then
            .pdict [("row_count", .pint (pyToNat results_input)), ("rows", .plist [])]
          else
            match jloads results_input with
            | some v => v
            | none => .pdict [("raw_output", .pstr results_input)]
        some (mkSqlSuccess query results now, 2)
    else
      let results : PyVal :=
        match jloads outcome with
        | some v => v
        | none => .pdict [("raw_output", .pstr outcome)]
      some (mkSqlSuccess query results now, 1)

/-! ## Coordination state machine (spec §4.3) -/

/-- Modelled from the spec: the coordination workflow exists in the source only
as the natural-language instruction string of `root_agent` (agent.py lines
236-270); spec §4.3 externalizes it as an explicit state machine, whose states
are embedded here.  `escalated` records the state that triggered escalation;
`done` records whether the session ended cancelled. -/
inductive CState where
  | awaitInterviewerSlots : CState
  | awaitCandidatePreference : CState
  | awaitConfirmation : CState
  | escalated : CState → CState
  | done : Bool → CState
deriving DecidableEq, Repr

/-- The three non-terminal, non-escalated states from which escalation can be
triggered and to which a `resolved` escalation returns control. -/
def CState.active : CState → Prop
  | .awaitInterviewerSlots => True
  | .awaitCandidatePreference => True
  | .awaitConfirmation => True
  | _ => False

/-- Modelled from the spec: the transition relation of §4.3.
`AwaitInterviewerSlots`: contact success advances, repeated no-answer
escalates; `AwaitCandidatePreference`: likewise; `AwaitConfirmation`:
scheduling success finishes, conflict escalates; `Escalated`: a `resolved`
decision returns to the triggering state, a `cancelled` decision terminates
with the session marked cancelled. -/
inductive Step : CState → CState → Prop where
  | interviewerSlots : Step .awaitInterviewerSlots .awaitCandidatePreference
  | interviewerUnresponsive : Step .awaitInterviewerSlots (.escalated .awaitInterviewerSlots)
  | candidateChoice : Step .awaitCandidatePreference .awaitConfirmation
  | candidateConflict : Step .awaitCandidatePreference (.escalated .awaitCandidatePreference)
  | confirmSuccess : Step .awaitConfirmation (.done false)
  | confirmConflict : Step .awaitConfirmation (.escalated .awaitConfirmation)
  | escResolved (s : CState) (h : s.active) : Step (.escalated s) s
  | escCancelled (s : CState) : Step (.escalated s) (.done true)

/-! ## Claims -/

/-- C1: for every outcome string of a contact call, the status of the returned
record is "no_answer" exactly when the lowercased outcome contains "no answer"
or "failed", and "success" for every other string; in particular the empty
outcome yields "success". -/
theorem contact_status_classification (n p u o : String) :
    ((call_contact n p u o).status = "no_answer" ↔
      (substrOf "no answer" (pyLower o) ∨ substrOf "failed" (pyLower o))) ∧
    ((call_contact n p u o).status = "success" ↔
      ¬(substrOf "no answer" (pyLower o) ∨ substrOf "failed" (pyLower o))) ∧
    (call_contact n p u "").status = "success" := by
  refine ⟨?_, ?_, ?_⟩
  · simp only [call_contact, substrOf_iff]
    cases h1 : pyContains (pyLower o) "no answer" <;>
      cases h2 : pyContains (pyLower o) "failed" <;> simp [h1, h2]
  · simp only [call_contact, substrOf_iff]
    cases h1 : pyContains (pyLower o) "no answer" <;>
      cases h2 : pyContains (pyLower o) "failed" <;> simp [h1, h2]
  · rfl

/-- C2: for every outcome string of a scheduling attempt, the status of the
returned record is "conflict" exactly when the lowercased outcome contains
"conflict" or "fail", and "success" for every other string. -/
theorem scheduling_status_classification (c d t : String) (dur : Nat) (ty o now : String) :
    ((schedule_calendar c d t dur ty o now).status = "conflict" ↔
      (substrOf "conflict" (pyLower o) ∨ substrOf "fail" (pyLower o))) ∧
    ((schedule_calendar c d t dur ty o now).status = "success" ↔
      ¬(substrOf "conflict" (pyLower o) ∨ substrOf "fail" (pyLower o))) := by
  constructor
  · simp only [schedule_calendar, substrOf_iff]
    cases h1 : pyContains (pyLower o) "conflict" <;>
      cases h2 : pyContains (pyLower o) "fail" <;> simp [h1, h2]
  · simp only [schedule_calendar, substrOf_iff]
    cases h1 : pyContains (pyLower o) "conflict" <;>
      cases h2 : pyContains (pyLower o) "fail" <;> simp [h1, h2]

/-- C3: for every decision string of a human-in-the-loop escalation, the status
of the returned record is "cancelled" exactly when the lowercased decision
contains "cancel", and "resolved" for every other decision string. -/
theorem escalation_decision_classification (s c g dec extra now : String) :
    ((human_in_loop s c g dec extra now).status = "cancelled" ↔
      substrOf "cancel" (pyLower dec)) ∧
    ((human_in_loop s c g dec extra now).status = "resolved" ↔
      ¬substrOf "cancel" (pyLower dec)) := by
  constructor
  · simp only [human_in_loop, substrOf_iff]
    cases h1 : pyContains (pyLower dec) "cancel" <;> simp [h1]
  · simp only [human_in_loop, substrOf_iff]
    cases h1 : pyContains (pyLower dec) "cancel" <;> simp [h1]

/-- C4: outcome classification is a pure function of the raw outcome text:
for each tool (call, scheduling, email, escalation), two invocations with the
same outcome text yield the same derived status, whatever the other arguments
(names, numbers, dates, subjects, simulated replies) and the current time. -/
theorem status_pure_in_outcome_text
    (o n1 p1 u1 n2 p2 u2 : String)
    (c1 d1 t1 ty1 nw1 c2 d2 t2 ty2 nw2 : String) (dur1 dur2 : Nat)
    (r1 s1 m1 a1 e1 rt1 r2 s2 m2 a2 e2 rt2 : String)
    (si1 cx1 g1 x1 si2 cx2 g2 x2 : String) :
    (call_contact n1 p1 u1 o).status = (call_contact n2 p2 u2 o).status ∧
    (schedule_calendar c1 d1 t1 dur1 ty1 o nw1).status =
      (schedule_calendar c2 d2 t2 dur2 ty2 o nw2).status ∧
    (send_email r1 s1 m1 a1 o e1 rt1 nw1).status =
      (send_email r2 s2 m2 a2 o e2 rt2 nw2).status ∧
    (human_in_loop si1 cx1 g1 o x1 nw1).status =
      (human_in_loop si2 cx2 g2 o x2 nw2).status :=
  ⟨rfl, rfl, rfl, rfl⟩

/-- C6: the next-step field of a contact-call record is "Follow up via email"
exactly when the derived status is "no_answer", and "Proceed with scheduling"
exactly when it is "success". -/
theorem contact_next_steps (n p u o : String) :
    ((call_contact n p u o).next_steps = "Follow up via email" ↔
      (call_contact n p u o).status = "no_answer") ∧
    ((call_contact n p u o).next_steps = "Proceed with scheduling" ↔
      (call_contact n p u o).status = "success") := by
  constructor
  · simp only [call_contact]
    cases h1 : pyContains (pyLower o) "no answer" <;>
      cases h2 : pyContains (pyLower o) "failed" <;> simp [h1, h2]
  · simp only [call_contact]
    cases h1 : pyContains (pyLower o) "no answer" <;>
      cases h2 : pyContains (pyLower o) "failed" <;> simp [h1, h2]

/-- C9: the duration of a contact-call record is 5 minutes exactly when the
derived status is "success" and 0 exactly when it is "no_answer"; hence the
duration is positive iff the attempt is classified successful. -/
theorem contact_duration_positive_iff_success (n p u o : String) :
    ((call_contact n p u o).duration_minutes = 5 ↔
      (call_contact n p u o).status = "success") ∧
    ((call_contact n p u o).duration_minutes = 0 ↔
      (call_contact n p u o).status = "no_answer") ∧
    (0 < (call_contact n p u o).duration_minutes ↔
      (call_contact n p u o).status = "success") := by
  refine ⟨?_, ?_, ?_⟩ <;>
    · simp only [call_contact]
      cases h1 : pyContains (pyLower o) "no answer" <;>
        cases h2 : pyContains (pyLower o) "failed" <;> simp [h1, h2]

/-- C5 fails as stated: a call purpose containing "applicant" (and none of the
other keywords) yields the default role "Contact", not "Candidate" — the
"applicant" keyword is only recognized by the email channel. -/
theorem role_applicant_call_counterexample :
    substrOf "applicant" (pyLower "Call the applicant") ∧
    (call_contact "Ann" "555-0100" "Call the applicant" "ok").contact_role = "Contact" :=
  ⟨by decide, by decide⟩

/-- C5 (amended): the role label is derived case-insensitively, rules checked
in order.  For calls, from the purpose: "interviewer" → Interviewer,
"candidate" → Candidate, "hr"/"recruiter" → HR/Recruiter, else "Contact".
For emails, from the message type or subject: "interviewer"/"interview
availability" → Interviewer, "candidate"/"applicant" → Candidate,
"hr"/"recruiter"/"recruitment" → HR/Recruiter, else "Recipient". -/
theorem role_label_derivation (n p u o r s m a e rt now : String) :
    ((call_contact n p u o).contact_role =
      if substrOf "interviewer" (pyLower u) then "Interviewer"
      else if substrOf "candidate" (pyLower u) then "Candidate"
      else if substrOf "hr" (pyLower u) ∨ substrOf "recruiter" (pyLower u) then "HR/Recruiter"
      else "Contact") ∧
    ((send_email r s m a o e rt now).recipient_role =
      if (substrOf "interviewer" (pyLower m) ∨ substrOf "interviewer" (pyLower s)) ∨
          (substrOf "interview availability" (pyLower m) ∨
            substrOf "interview availability" (pyLower s)) then "Interviewer"
      else if (substrOf "candidate" (pyLower m) ∨ substrOf "candidate" (pyLower s)) ∨
          (substrOf "applicant" (pyLower m) ∨ substrOf "applicant" (pyLower s)) then "Candidate"
      else if ((substrOf "hr" (pyLower m) ∨ substrOf "hr" (pyLower s)) ∨
          substrOf "recruiter" (pyLower m) ∨ substrOf "recruiter" (pyLower s)) ∨
          substrOf "recruitment" (pyLower m) ∨ substrOf "recruitment" (pyLower s)
        then "HR/Recruiter"
      else "Recipient") := by
  constructor
  · simp only [call_contact, substrOf_iff, Bool.or_eq_true]
  · simp only [send_email, substrOf_iff, Bool.or_eq_true]

/-- C7: when the delivery outcome text contains neither "fail" nor "error"
(case-insensitively) and the simulated recipient reply is empty or
whitespace-only, the email record keeps the positive status "success" while
marking the absent reply distinctly: recipient_response is
"No response received" and response_time is "N/A". -/
theorem email_no_response_marking (r s m a o reply rt now : String)
    (hf : ¬substrOf "fail" (pyLower o)) (he : ¬substrOf "error" (pyLower o))
    (hb : pyStrip reply = "") :
    (send_email r s m a o reply rt now).status = "success" ∧
    (send_email r s m a o reply rt now).recipient_response = "No response received" ∧
    (send_email r s m a o reply rt now).response_time = "N/A" := by
  rw [substrOf_iff, Bool.not_eq_true] at hf he
  refine ⟨?_, ?_, ?_⟩ <;> simp [send_email, hf, he, hb]

/-- Witness for C7 at a concrete input: outcome "delivered ok", reply "  ". -/
theorem email_no_response_marking_witness :
    (send_email "a@b.example" "Interview invite" "availability request" ""
        "delivered ok" "  " "" "2024-01-01T00:00:00").status = "success" ∧
    (send_email "a@b.example" "Interview invite" "availability request" ""
        "delivered ok" "  " "" "2024-01-01T00:00:00").recipient_response =
      "No response received" ∧
    (send_email "a@b.example" "Interview invite" "availability request" ""
        "delivered ok" "  " "" "2024-01-01T00:00:00").response_time = "N/A" :=
  email_no_response_marking "a@b.example" "Interview invite" "availability request" ""
    "delivered ok" "  " "" "2024-01-01T00:00:00" (by decide) (by decide) (by decide)

/-- Helper for C8: along any transition chain, the successful terminal state
can only have been entered from `awaitConfirmation`, so a chain from any
non-terminal start that ends in `done false` passes through it. -/
theorem chain_done_mem (l : List CState) : ∀ start : CState,
    start ≠ CState.done false →
    List.Chain Step start l →
    (start :: l).getLast? = some (CState.done false) →
    CState.awaitConfirmation ∈ start :: l := by
  induction l with
  | nil =>
    intro start hne _ hl
    simp only [List.getLast?_singleton, Option.some.injEq] at hl
    exact absurd hl hne
  | cons s2 l2 ih =>
    intro start hne hc hl
    rw [List.chain_cons] at hc
    obtain ⟨hstep, hchain⟩ := hc
    rw [List.getLast?_cons_cons] at hl
    by_cases h2 : s2 = CState.done false
    · subst h2
      cases l2 with
      | nil =>
        cases hstep with
        | confirmSuccess => exact List.mem_cons_self _ _
        | escResolved s h => exact False.elim h
      | cons x l3 =>
        rw [List.chain_cons] at hchain
        cases hchain.1
    · exact List.mem_cons_of_mem _ (ih s2 h2 hchain hl)

/-- C8: the coordination state machine never steps from `AwaitInterviewerSlots`
or `AwaitCandidatePreference` directly to the terminal `Done` state, and every
execution that starts at `AwaitInterviewerSlots` and ends in the successful
`Done` state has entered `AwaitConfirmation` along the way. -/
theorem coordination_done_requires_confirmation :
    (∀ b, ¬Step CState.awaitInterviewerSlots (CState.done b)) ∧
    (∀ b, ¬Step CState.awaitCandidatePreference (CState.done b)) ∧
    ∀ l, List.Chain Step CState.awaitInterviewerSlots l →
      (CState.awaitInterviewerSlots :: l).getLast? = some (CState.done false) →
      CState.awaitConfirmation ∈ l := by
  refine ⟨?_, ?_, ?_⟩
  · intro b h
    cases h
  · intro b h
    cases h
  · intro l hc hl
    have hm := chain_done_mem l CState.awaitInterviewerSlots (fun h => nomatch h) hc hl
    rcases List.mem_cons.mp hm with h | h
    · exact absurd h (fun hh => nomatch hh)
    · exact h

/-- Witness for C8 on the concrete three-step success run. -/
theorem coordination_done_requires_confirmation_witness :
    CState.awaitConfirmation ∈
      [CState.awaitCandidatePreference, CState.awaitConfirmation, CState.done false] :=
  coordination_done_requires_confirmation.2.2
    [CState.awaitCandidatePreference, CState.awaitConfirmation, CState.done false]
    (List.Chain.cons Step.interviewerSlots
      (List.Chain.cons Step.candidateChoice
        (List.Chain.cons Step.confirmSuccess List.Chain.nil)))
    rfl

/-- C10: when the first console input to the SQL execution tool starts with
"error" (case-insensitively), the tool returns normally after consuming only
that one input, with status "error" and error_message equal to the input minus
its first six characters, whitespace-stripped — or "Unknown database error"
when the input is at most six characters long. -/
theorem sql_error_branch (jloads : String → Option PyVal) (query explanation : String)
    (outcome : String) (rest : List String) (now : String)
    (h : ∃ t, (pyLower outcome).data = "error".data ++ t) :
    ∃ res : SqlResult,
      execute_sql_query jloads query explanation (outcome :: rest) now = some (res, 1) ∧
      res.status = "error" ∧
      res.error_message = some (if 6 < outcome.data.length
        then pyStrip ⟨outcome.data.drop 6⟩ else "Unknown database error") := by
  rw [← pyStartsWith_iff] at h
  refine ⟨SqlResult.err query
      (if 6 < outcome.data.length then pyStrip ⟨outcome.data.drop 6⟩
       else "Unknown database error")
      "Check table names, column names, and syntax" now, ?_, rfl, rfl⟩
  simp [execute_sql_query, h]

/-- Witness for C10: input "ERROR: relation misssing" with an empty remaining
stream — only the matched branch runs, so no second input is even needed. -/
theorem sql_error_branch_witness :
    ∃ res : SqlResult,
      execute_sql_query (fun _ => none) "SELECT 1" "" ["ERROR: relation misssing"]
          "2024-01-01" = some (res, 1) ∧
      res.status = "error" ∧
      res.error_message = some (if 6 < ("ERROR: relation misssing" : String).data.length
        then pyStrip ⟨("ERROR: relation misssing" : String).data.drop 6⟩
        else "Unknown database error") :=
  sql_error_branch (fun _ => none) "SELECT 1" "" "ERROR: relation misssing" []
    "2024-01-01" ⟨": relation misssing".data, by decide⟩
